import Mathlib

/-!
Verification of the van-bolt marketplace front-end: a shallow embedding of
the session/profile-resolution state machine (Redux `authSlice` +
`userService`, and the `AuthContext` variants) and of the listing filter
(`campersSlice.applyFilters`), with theorems settling the spec's claims.

JavaScript conventions used throughout the embedding:
  * optional string fields (`user_metadata.full_name`, `email`, ...) are
    `Option String`; the JS value `undefined` is `none`;
  * JS truthiness on strings: `undefined` and `""` are falsy, so `a || b`
    skips both absent and empty strings;
  * JS numbers that the code only compares and copies are modelled as `Int`
    (prices, capacities) — the SQL `numeric` rating is likewise carried as
    an `Int` since no arithmetic is ever performed on it, only copying.
-/

namespace VanBolt

/-! ## String primitives (JS `String.prototype.includes`, `toLowerCase`) -/

/-- `listStartsWith hay needle` is true when `needle` is an initial segment
of `hay` (both as character lists). -/
def listStartsWith : List Char → List Char → Bool
  | _, [] => true
  | [], _ :: _ => false
  | h :: hs, n :: ns => h = n && listStartsWith hs ns

/-- `listIncludes needle hay` is true when `needle` occurs contiguously
somewhere in `hay` — JS `hay.includes(needle)` on the underlying chars. -/
def listIncludes (needle : List Char) : List Char → Bool
  | [] => needle.isEmpty
  | h :: t => listStartsWith (h :: t) needle || listIncludes needle t

/-- JS `hay.includes(needle)`. -/
def strIncludes (hay needle : String) : Bool :=
  listIncludes needle.data hay.data

/-- JS `s.toLowerCase()` (per-character lowering, as the sources only ever
feed it ASCII). -/
def lowerStr (s : String) : String :=
  String.mk (s.data.map Char.toLower)

/-- The whitespace characters relevant to JS `s.trim()` here (the ASCII
ones; the full Unicode white-space set never occurs in these sources). -/
def isJsSpace (c : Char) : Bool :=
  c = ' ' || c = '\t' || c = '\n' || c = '\r'

/-- JS `s.trim()`: strip leading and trailing whitespace. -/
def strTrim (s : String) : String :=
  String.mk (((s.data.dropWhile isJsSpace).reverse.dropWhile isJsSpace).reverse)

/-! ## Listing filter data model (`campersSlice.ts`, `types/index.ts`)

`Camper` keeps exactly the fields the filtering code reads (`location`,
`title`, `description`, `price`, `capacity`, `type`, `features`) plus the
`id` used by `toggleFavorite`; the purely presentational fields (`images`,
`amenities`, `owner`, `availability`, `rating`, `reviewCount`) are never
read nor written by any modelled operation and are omitted. -/

structure Features where
  kitchen : Bool
  bathroom : Bool
  heating : Bool
  airConditioning : Bool
  wifi : Bool
  solar : Bool
  generator : Bool
  awning : Bool
  deriving DecidableEq, Repr

/-- JS `camper.features[feature]` with a string key: a flag for the eight
known keys, `undefined` (falsy) for any other string. -/
def Features.get (f : Features) (k : String) : Bool :=
  if k = "kitchen" then f.kitchen
  else if k = "bathroom" then f.bathroom
  else if k = "heating" then f.heating
  else if k = "airConditioning" then f.airConditioning
  else if k = "wifi" then f.wifi
  else if k = "solar" then f.solar
  else if k = "generator" then f.generator
  else if k = "awning" then f.awning
  else false

structure Camper where
  id : String
  title : String
  description : String
  price : Int
  location : String
  capacity : Int
  type : String
  features : Features
  deriving DecidableEq, Repr

structure FilterOptions where
  priceMin : Int
  priceMax : Int
  capacity : Int
  type : String
  features : List String
  deriving DecidableEq, Repr

structure CampersState where
  allCampers : List Camper
  filteredCampers : List Camper
  searchQuery : String
  favorites : List String
  filters : FilterOptions
  deriving DecidableEq, Repr

/-- One disjunct of the text-query test of `applyFilters`:
`camper.location.toLowerCase().includes(q.toLowerCase()) || ...`. -/
def queryMatches (q : String) (c : Camper) : Bool :=
  strIncludes (lowerStr c.location) (lowerStr q) ||
  strIncludes (lowerStr c.title) (lowerStr q) ||
  strIncludes (lowerStr c.description) (lowerStr q)

/-- The `applyFilters` case reducer of `campersSlice.ts` (lines 53–90):
successive `Array.prototype.filter` passes over `allCampers`, each guarded
exactly as in the source, the result assigned to `filteredCampers`. -/
def applyFilters (s : CampersState) : CampersState :=
  let f0 := s.allCampers
  let f1 := if strTrim s.searchQuery ≠ "" then f0.filter (queryMatches s.searchQuery) else f0
  let f2 := f1.filter fun c => s.filters.priceMin ≤ c.price && c.price ≤ s.filters.priceMax
  let f3 := if 0 < s.filters.capacity then f2.filter (fun c => s.filters.capacity ≤ c.capacity) else f2
  let f4 := if s.filters.type ≠ "" then f3.filter (fun c => c.type = s.filters.type) else f3
  let f5 := if s.filters.features ≠ [] then
      f4.filter (fun c => s.filters.features.all fun k => c.features.get k)
    else f4
  { s with filteredCampers := f5 }

/-- `setSearchQuery` reducer: store the query, then re-run `applyFilters`. -/
def setSearchQuery (q : String) (s : CampersState) : CampersState :=
  applyFilters { s with searchQuery := q }

/-- `setFilters` reducer: store the criteria, then re-run `applyFilters`. -/
def setFilters (f : FilterOptions) (s : CampersState) : CampersState :=
  applyFilters { s with filters := f }

/-- `toggleFavorite` reducer: remove the id when present, append otherwise. -/
def toggleFavorite (cid : String) (s : CampersState) : CampersState :=
  if s.favorites.contains cid then
    { s with favorites := s.favorites.filter fun i => i ≠ cid }
  else
    { s with favorites := s.favorites ++ [cid] }

/-- The conjunctive keep-predicate exactly as claim C3 words it: a
*non-empty* query must be a case-insensitive substring of location, title
or description; plus the price/capacity/type/feature conjuncts. -/
def keepListing (q : String) (f : FilterOptions) (c : Camper) : Bool :=
  (q = "" || queryMatches q c) &&
  (f.priceMin ≤ c.price && c.price ≤ f.priceMax) &&
  (!(0 < f.capacity) || f.capacity ≤ c.capacity) &&
  (f.type = "" || c.type = f.type) &&
  (f.features.all fun k => c.features.get k)

/-- The keep-predicate the code actually implements: identical to
`keepListing` except that the text-query conjunct is skipped whenever the
query is empty *after trimming* (the source tests `searchQuery.trim()`). -/
def keepListingTrim (q : String) (f : FilterOptions) (c : Camper) : Bool :=
  (strTrim q = "" || queryMatches q c) &&
  (f.priceMin ≤ c.price && c.price ≤ f.priceMax) &&
  (!(0 < f.capacity) || f.capacity ≤ c.capacity) &&
  (f.type = "" || c.type = f.type) &&
  (f.features.all fun k => c.features.get k)

/-! ## Session / profile data model (`types/index.ts`, `authSlice.ts`,
`userService.ts`, supabase session objects) -/

/-- The role tag: constrained to exactly two values both by the SQL check
constraint and the TypeScript union. -/
inductive Role where
  | owner
  | customer
  deriving DecidableEq, Repr

/-- The provider-supplied `user_metadata` object; every field may be
absent. -/
structure UserMetadata where
  full_name : Option String
  name : Option String
  avatar_url : Option String
  picture : Option String
  deriving DecidableEq, Repr

/-- `session.user` from the auth provider. -/
structure SessionUser where
  id : String
  email : Option String
  user_metadata : UserMetadata
  deriving DecidableEq, Repr

/-- An authenticated session (a session whose `user` is present; the code's
`!session?.user` test folds a user-less session into the `none` case of
`Option Session`). -/
structure Session where
  user : SessionUser
  deriving DecidableEq, Repr

/-- The projection of a `users` table row selected by every query in the
sources: `id, name, email, role, avatar, rating, review_count`. `name` and
`email` are `NOT NULL` columns, `avatar` is nullable. -/
structure ProfileRow where
  id : String
  name : String
  email : String
  role : Role
  avatar : Option String
  rating : Int
  review_count : Int
  deriving DecidableEq, Repr

/-- The application `User` record (`types/index.ts`): `avatar`, `rating`
and `reviewCount` are optional there. -/
structure User where
  id : String
  name : String
  email : String
  role : Role
  avatar : Option String
  rating : Option Int
  reviewCount : Option Int
  deriving DecidableEq, Repr

/-! ### JS `||` chains on optional strings -/

/-- JS truthiness of an optional string: `undefined` and `""` are falsy. -/
def jsTruthy : Option String → Bool
  | some s => s ≠ ""
  | none => false

/-- JS `a || b` where `a` is an optional string and `b` a string. -/
def jsOr (a : Option String) (b : String) : String :=
  if jsTruthy a then a.getD "" else b

/-- JS `a || b` where both sides are optional strings (the result may still
be absent, as in `avatar_url || picture`). -/
def jsOrOpt (a b : Option String) : Option String :=
  if jsTruthy a then a else b

/-- JS `email?.split('@')[0]`: absent when the email is absent, otherwise
everything before the first `'@'`. -/
def emailLocalPart (email : Option String) : Option String :=
  email.map fun e => (e.splitOn "@").headD ""

/-- The display-name chain appearing verbatim in `authSlice.ts` (55–57),
`setupPendingProfile` and `createFallbackUser`:
`user_metadata?.full_name || user_metadata?.name || email?.split('@')[0] || 'User'`. -/
def pendingName (m : UserMetadata) (email : Option String) : String :=
  jsOr m.full_name (jsOr m.name (jsOr (emailLocalPart email) "User"))

/-- The avatar chain `user_metadata?.avatar_url || user_metadata?.picture`. -/
def pendingAvatar (m : UserMetadata) : Option String :=
  jsOrOpt m.avatar_url m.picture

/-- The `pendingUserData` object built by the `authSlice` thunk (52–60). -/
structure PendingUserData where
  id : String
  email : String
  name : String
  avatar : Option String
  deriving DecidableEq, Repr

/-- `authSlice.ts` 52–60: pending data from provider metadata. -/
def mkPendingData (u : SessionUser) : PendingUserData :=
  { id := u.id
    email := jsOr u.email ""
    name := pendingName u.user_metadata u.email
    avatar := pendingAvatar u.user_metadata }

/-! ### Profile store responses -/

/-- A PostgREST error object as the code inspects it: a `code` and a
`message`. -/
structure DbError where
  code : String
  message : String
  deriving DecidableEq, Repr

/-- Outcome of the single-row fetch issued by `userService.getUserProfile`
(`.single()`): a row, a database error, or a thrown exception (network
failure etc.) landing in the `catch`. -/
inductive SvcLookup where
  | row (r : ProfileRow)
  | failure (e : DbError)
  | thrown (msg : String)
  deriving DecidableEq, Repr

/-- The profile store as a key–value map from subject id to row. -/
def ProfileStore := String → Option ProfileRow

/-- A healthy store answering `.single()`: the row when present, the
PostgREST `PGRST116` error when no row matches. -/
def fetchFromStore (store : ProfileStore) (id : String) : SvcLookup :=
  match store id with
  | some r => .row r
  | none => .failure { code := "PGRST116", message := "no rows returned" }

/-- `userService.getUserProfile`'s row-to-`User` mapping (139–147): every
field verbatim from the row. -/
def userFromRow (r : ProfileRow) : User :=
  { id := r.id
    name := r.name
    email := r.email
    role := r.role
    avatar := r.avatar
    rating := some r.rating
    reviewCount := some r.review_count }

/-- `AuthContext.fetchUserProfile`'s row-to-`User` mapping (185–193):
`name: userProfile.name || 'User'`, `email: userProfile.email || ''`,
the remaining fields verbatim. -/
def userFromRowCtx (r : ProfileRow) : User :=
  { id := r.id
    name := if r.name = "" then "User" else r.name
    email := if r.email = "" then "" else r.email
    role := r.role
    avatar := r.avatar
    rating := some r.rating
    reviewCount := some r.review_count }

/-- The `UserServiceResult` shape returned by `userService.getUserProfile`. -/
structure ServiceResult where
  user : Option User
  needsProfileSetup : Bool
  error : Option String
  deriving DecidableEq, Repr

/-- `userService.getUserProfile` (91–173): a `PGRST116` / `'no rows'` error
means "no profile, needs setup"; any other database error is surfaced; a
thrown exception lands in the catch-all (`needsProfileSetup: true` *and* an
error string); a row is mapped verbatim. -/
def getUserProfile (resp : SvcLookup) : ServiceResult :=
  match resp with
  | .row r =>
      { user := some (userFromRow r), needsProfileSetup := false, error := none }
  | .failure e =>
      if e.code = "PGRST116" || strIncludes e.message "no rows" then
        { user := none, needsProfileSetup := true, error := none }
      else
        { user := none, needsProfileSetup := false
          error := some ("Database error: " ++ e.message) }
  | .thrown msg =>
      { user := none, needsProfileSetup := true
        error := some ("Service error: " ++ msg) }

/-! ### The Redux resolver (`authSlice.ts` + `AuthProvider.tsx`) -/

/-- The payload of the `handleUserSession` thunk, or its rejection. -/
inductive SessionOutcome where
  | noSession
  | needsSetup (sess : Session) (pending : PendingUserData)
  | userLoaded (sess : Session) (user : User)
  | rejected (err : String)
  deriving DecidableEq, Repr

/-- The `handleUserSession` thunk body (`authSlice.ts` 33–83): no session →
`NO_SESSION`; otherwise one `getUserProfile` call, whose `error` rejects,
whose `needsProfileSetup` yields pending provider data, whose `user` yields
`USER_LOADED`; a result with none of those rejects with
`'Unknown user state'`. -/
def handleUserSession (resp : SvcLookup) (session : Option Session) : SessionOutcome :=
  match session with
  | none => .noSession
  | some sess =>
      let r := getUserProfile resp
      match r.error with
      | some e => .rejected e
      | none =>
          if r.needsProfileSetup then
            .needsSetup sess (mkPendingData sess.user)
          else
            match r.user with
            | some u => .userLoaded sess u
            | none => .rejected "Unknown user state"

/-- The Redux `AuthState` (`authSlice.ts` 7–30). -/
structure AuthState where
  user : Option User
  session : Option Session
  loading : Bool
  needsProfileSetup : Bool
  pendingUserData : Option PendingUserData
  error : Option String
  isAuthenticated : Bool
  deriving DecidableEq, Repr

/-- The `setSession` reducer (219–222). -/
def setSession (sess : Option Session) (s : AuthState) : AuthState :=
  { s with session := sess, isAuthenticated := sess.isSome }

/-- The `handleUserSession.pending` reducer (239–245): start loading and
clear the modal state immediately. -/
def sessionPending (s : AuthState) : AuthState :=
  { s with
    loading := true
    error := none
    needsProfileSetup := false
    pendingUserData := none }

/-- The `handleUserSession.fulfilled`/`rejected` reducers (246–272), one
case per payload type. -/
def sessionSettled (o : SessionOutcome) (s : AuthState) : AuthState :=
  match o with
  | .noSession =>
      { s with
        loading := false
        user := none
        session := none
        isAuthenticated := false
        needsProfileSetup := false
        pendingUserData := none }
  | .needsSetup sess p =>
      { s with
        loading := false
        session := some sess
        isAuthenticated := true
        user := none
        needsProfileSetup := true
        pendingUserData := some p }
  | .userLoaded sess u =>
      { s with
        loading := false
        session := some sess
        isAuthenticated := true
        user := some u
        needsProfileSetup := false
        pendingUserData := none }
  | .rejected e =>
      { s with loading := false, error := some e }

/-- One `AuthProvider` trigger (`AuthProvider.tsx` 17–30): dispatch
`setSession`, then the `handleUserSession` thunk, whose pending and settled
actions each publish a state. The list is every state a store subscriber
observes during the call, in order; the last entry is the resolved state. -/
def resolveTrace (resp : SvcLookup) (sess : Option Session) (s : AuthState) :
    List AuthState :=
  let s1 := setSession sess s
  let s2 := sessionPending s1
  let s3 := sessionSettled (handleUserSession resp sess) s2
  [s1, s2, s3]

/-- The resolved state after one `AuthProvider` trigger. -/
def resolve (resp : SvcLookup) (sess : Option Session) (s : AuthState) : AuthState :=
  sessionSettled (handleUserSession resp sess) (sessionPending (setSession sess s))

/-! ### The `AuthProvider` event loop (for the lookup-count claim) -/

/-- One auth event processed by `AuthProvider.tsx` (17–30): the thunk body
issues a remote `getUserProfile` lookup exactly when the session carries a
user, with no affinity guard of any kind; returns the new state and the
number of remote lookups issued. -/
def processEvent (store : ProfileStore) (sess : Option Session) (s : AuthState) :
    AuthState × Nat :=
  match sess with
  | none => (resolve (.thrown "unused") none s, 0)
  | some sc => (resolve (fetchFromStore store sc.user.id) (some sc) s, 1)

/-- A sequence of auth events, each handled by `processEvent`, accumulating
the number of remote lookups issued. -/
def processEvents (store : ProfileStore) : List (Option Session) → AuthState →
    AuthState × Nat
  | [], s => (s, 0)
  | e :: rest, s =>
      let p := processEvent store e s
      let q := processEvents store rest p.1
      (q.1, p.2 + q.2)

/-! ### Profile creation (`userService.createUserProfile` +
`completeProfileSetup` thunk) -/

/-- The form data submitted from the setup modal. -/
structure ProfileForm where
  name : String
  role : Role
  deriving DecidableEq, Repr

/-- The row `userService.createUserProfile` sends to the store (193–207). -/
structure InsertRequest where
  id : String
  name : String
  email : String
  role : Role
  avatar : String
  rating : Int
  review_count : Int
  deriving DecidableEq, Repr

/-- The generated `ui-avatars.com` URL (188); the URI-encoding of the name
is not modelled, only the string's dependence on it. -/
def defaultAvatarUrl (name : String) : String :=
  "https://ui-avatars.com/api/?name=" ++ name ++
    "&size=150&background=059669&color=fff&bold=true"

/-- `userService.createUserProfile`'s insert payload (196–204): trimmed
name, the chosen role, generated avatar, rating 5, zero reviews. -/
def mkInsertRequest (id name email : String) (role : Role) : InsertRequest :=
  { id := id, name := name.trim, email := email, role := role
    avatar := defaultAvatarUrl name, rating := 5, review_count := 0 }

/-- The store's answer to an insert: the echoed row (`.select(...).single()`)
or an error (constraint violation, timeout, ...). -/
inductive InsertResult where
  | ok (row : ProfileRow)
  | err (msg : String)
  deriving DecidableEq, Repr

/-- The insert side of the profile store: what it answers to each request. -/
def InsertStore := InsertRequest → InsertResult

/-- `userService.createUserProfile` (178–244): build the request, send it,
map the echoed row verbatim on success, surface the error otherwise. -/
def createUserProfile (store : InsertStore) (id name email : String) (role : Role) :
    Option User × Option String :=
  match store (mkInsertRequest id name email role) with
  | .ok row => (some (userFromRow row), none)
  | .err msg => (none, some ("Failed to create profile: " ++ msg))

/-- Payload / rejection of the `completeProfileSetup` thunk. -/
inductive SetupOutcome where
  | fulfilled (u : User)
  | rejected (err : String)
  deriving DecidableEq, Repr

/-- The `completeProfileSetup` thunk body (`authSlice.ts` 86–118): reject
when there is no pending user data; otherwise insert and reject on error or
missing echoed user, fulfil with the created user. -/
def completeProfileSetup (store : InsertStore) (form : ProfileForm) (s : AuthState) :
    SetupOutcome :=
  match s.pendingUserData with
  | none => .rejected "No pending user data"
  | some p =>
      let r := createUserProfile store p.id form.name p.email form.role
      match r.2 with
      | some e => .rejected e
      | none =>
          match r.1 with
          | some u => .fulfilled u
          | none => .rejected "Failed to create user profile"

/-- The `completeProfileSetup.pending` reducer (275–278). -/
def setupPending (s : AuthState) : AuthState :=
  { s with loading := true, error := none }

/-- The `completeProfileSetup.fulfilled`/`rejected` reducers (279–288). -/
def setupSettled (o : SetupOutcome) (s : AuthState) : AuthState :=
  match o with
  | .fulfilled u =>
      { s with
        loading := false
        user := some u
        needsProfileSetup := false
        pendingUserData := none }
  | .rejected e =>
      { s with loading := false, error := some e }

/-- Dispatching the `completeProfileSetup` thunk: pending action, thunk
body reading the (pending-updated) state, settled action. -/
def dispatchSetup (store : InsertStore) (form : ProfileForm) (s : AuthState) :
    AuthState :=
  let s1 := setupPending s
  setupSettled (completeProfileSetup store form s1) s1

/-! ### The `AuthContext` variants (`AuthContext.tsx`, `unnamed/part_006`) -/

/-- Outcome of the raced `maybeSingle()` lookup in the `AuthContext`
variants: data (a row or null), a database error, or the 3s/1.5s timeout
rejection. -/
inductive CtxLookup where
  | success (row : Option ProfileRow)
  | failure (e : DbError)
  | timeout
  deriving DecidableEq, Repr

/-- `part_006` 790–795: the error classes treated as "no profile row"
(missing row or missing table) rather than as store failures. -/
def isNotFoundClass (e : DbError) : Bool :=
  e.code = "PGRST116" ||
  strIncludes e.message "not found" ||
  strIncludes e.message "no rows" ||
  e.code = "42P01" ||
  strIncludes e.message "relation" ||
  strIncludes e.message "does not exist"

/-- `AuthContext.fetchUserProfile` (150–201): a row maps through
`userFromRowCtx`; a database error, a null row and a timeout (caught
exception) all return `null`. -/
def fetchUserProfile (resp : CtxLookup) : Option User :=
  match resp with
  | .success (some r) => some (userFromRowCtx r)
  | .success none => none
  | .failure _ => none
  | .timeout => none

/-- The pending data built by the `AuthContext` variants' `setupPendingProfile`
(carries the preferred-role hint). -/
structure CtxPending where
  id : String
  email : String
  name : String
  avatar : Option String
  preferredRole : Option Role
  deriving DecidableEq, Repr

/-- The `AuthContext` variants' component state: the independent `useState`
flags. -/
structure CtxState where
  user : Option User
  loading : Bool
  needsProfileSetup : Bool
  pendingUserData : Option CtxPending
  deriving DecidableEq, Repr

/-- `createFallbackUser` (`AuthContext.tsx` 318–334, `part_006` 902–918): a
`Resolved` user fabricated from provider metadata with `role: 'customer'`,
clearing the modal state. -/
def createFallbackUser (u : SessionUser) (s : CtxState) : CtxState :=
  { s with
    user := some
      { id := u.id
        name := pendingName u.user_metadata u.email
        email := jsOr u.email ""
        role := .customer
        avatar := pendingAvatar u.user_metadata
        rating := none
        reviewCount := none }
    needsProfileSetup := false
    pendingUserData := none
    loading := false }

/-- `setupPendingProfile` (`part_006` 921–946): publish the pending
provider data and raise the needs-profile flag. -/
def setupPendingProfile (u : SessionUser) (pref : Option Role) (s : CtxState) :
    CtxState :=
  { s with
    pendingUserData := some
      { id := u.id
        email := jsOr u.email ""
        name := pendingName u.user_metadata u.email
        avatar := pendingAvatar u.user_metadata
        preferredRole := pref }
    needsProfileSetup := true
    user := none
    loading := false }

/-- `part_006`'s `handleUserSession` (707–899), the variant the claim cites:
timeout → immediate fallback user; database error → pending setup when the
error is of the not-found class, fallback user otherwise; a row → publish
it through the `|| 'User'` mapping; a null row → pending setup. -/
def ctxHandleUserSession (resp : CtxLookup) (u : SessionUser) (pref : Option Role)
    (s : CtxState) : CtxState :=
  match resp with
  | .timeout => createFallbackUser u s
  | .failure e =>
      if isNotFoundClass e then setupPendingProfile u pref s
      else createFallbackUser u s
  | .success (some r) =>
      { s with
        user := some (userFromRowCtx r)
        needsProfileSetup := false
        pendingUserData := none
        loading := false }
  | .success none => setupPendingProfile u pref s

/-! ## Concrete fixtures -/

/-- A listing with no whitespace in any searched field. -/
def exCamper : Camper :=
  { id := "1", title := "cozyvan", description := "nice", price := 120
    location := "austin", capacity := 2, type := "van"
    features := ⟨false, false, false, false, false, false, false, false⟩ }

/-- The slice's initial filter criteria. -/
def exFilters : FilterOptions :=
  { priceMin := 0, priceMax := 500, capacity := 0, type := "", features := [] }

/-- A campers state whose search query is whitespace-only. -/
def exCampersState : CampersState :=
  { allCampers := [exCamper], filteredCampers := [exCamper]
    searchQuery := " ", favorites := [], filters := exFilters }

/-! ## Auth fixtures -/

/-- Provider metadata with both name fields present. -/
def exMeta : UserMetadata :=
  { full_name := some "Jane Doe", name := some "Jane"
    avatar_url := none, picture := none }

def exSessionUser : SessionUser :=
  { id := "u1", email := some "jane@example.com", user_metadata := exMeta }

def exSession : Session := { user := exSessionUser }

/-- The slice's initial auth state. -/
def exAuthInit : AuthState :=
  { user := none, session := none, loading := true, needsProfileSetup := false
    pendingUserData := none, error := none, isAuthenticated := false }

def exRow : ProfileRow :=
  { id := "u1", name := "Jane Doe", email := "jane@example.com"
    role := .owner, avatar := some "https://img/a.png", rating := 5
    review_count := 3 }

/-- A store with no rows at all. -/
def exStoreEmpty : ProfileStore := fun _ => none

/-- A store holding exactly `exRow` under id `"u1"`. -/
def exStoreWithRow : ProfileStore := fun i => if i = "u1" then some exRow else none

/-! ## Spec-side name chains (for the refinement comparison of C7) -/

/-- Null-coalescing on optional strings: the first *present* value, even an
empty one. -/
def optOr (a b : Option String) : Option String :=
  match a with
  | some s => some s
  | none => b

/-- Stated from the claim's words (C7): the pending display name as the
`??`-precedence chain `providerFullName ?? providerName ?? emailLocalPart
?? "User"`, where a field participates whenever it is present. -/
def specPendingName (m : UserMetadata) (email : Option String) : String :=
  (optOr m.full_name (optOr m.name (emailLocalPart email))).getD "User"

/-- The first candidate that is present *and non-empty*, else the default —
the chain the code's `||` operators actually compute. -/
def firstNonEmpty : List (Option String) → String → String
  | [], d => d
  | a :: rest, d =>
      match a with
      | some s => if s = "" then firstNonEmpty rest d else s
      | none => firstNonEmpty rest d

/-! ## More fixtures -/

/-- The NeedsProfile state reached by resolving `exSession` against an
empty store. -/
def exNeedsState : AuthState :=
  resolve (fetchFromStore exStoreEmpty exSessionUser.id) (some exSession) exAuthInit

def exForm : ProfileForm := { name := "Jane Doe", role := .owner }

/-- An insert store that always fails with a constraint violation. -/
def exInsertStoreErr : InsertStore :=
  fun _ => .err "duplicate key value violates unique constraint"

/-- A row as echoed back by the store after an insert — deliberately
different from the request (name shortened, role and rating changed by a
hypothetical trigger) to exhibit that the echoed values win. -/
def exEchoRow : ProfileRow :=
  { id := "u1", name := "Jane D.", email := "jane@example.com"
    role := .customer, avatar := some "https://img/gen.png", rating := 4
    review_count := 7 }

/-- An insert store that answers every insert with `exEchoRow`. -/
def exInsertStoreEcho : InsertStore := fun _ => .ok exEchoRow

/-- Metadata whose `full_name` is present but empty. -/
def exMetaEmptyFull : UserMetadata :=
  { full_name := some "", name := some "Bob", avatar_url := none, picture := none }

def exUserEmptyFull : SessionUser :=
  { id := "u2", email := none, user_metadata := exMetaEmptyFull }

def exSessionEmptyFull : Session := { user := exUserEmptyFull }

/-- The `AuthContext` variants' initial component state. -/
def exCtxInit : CtxState :=
  { user := none, loading := true, needsProfileSetup := false
    pendingUserData := none }

/-- A stored row whose `name` column is the empty string. -/
def exRowEmptyName : ProfileRow :=
  { id := "u3", name := "", email := "sam@x.io", role := .owner
    avatar := none, rating := 5, review_count := 2 }

/-- A database error that is not of the not-found class. -/
def exDbErr : DbError := { code := "500", message := "connection refused" }

/-! ## Helper lemmas -/

/-- A conditionally applied filter pass is a filter by a conditionally
trivial predicate. -/
lemma filter_guard {α : Type} (c : Prop) [Decidable c] (p : α → Bool) (l : List α) :
    (if c then l.filter p else l) = l.filter (fun a => if c then p a else true) := by
  by_cases h : c <;> simp [h]

/-- `applyFilters` computes exactly one conjunctive filter pass over the
catalog, with the trim-aware query conjunct. -/
lemma applyFilters_filteredCampers (s : CampersState) :
    (applyFilters s).filteredCampers
      = s.allCampers.filter (keepListingTrim s.searchQuery s.filters) := by
  simp only [applyFilters]
  simp only [filter_guard]
  simp only [List.filter_filter]
  refine List.filter_congr fun c _ => ?_
  by_cases h1 : strTrim s.searchQuery = "" <;>
    by_cases h2 : 0 < s.filters.capacity <;>
    by_cases h3 : s.filters.type = "" <;>
    by_cases h4 : s.filters.features = [] <;>
    simp [keepListingTrim, h1, h2, h3, h4, Bool.and_comm, Bool.and_assoc,
      Bool.and_left_comm]

/-- `applyFilters` never touches the catalog itself. -/
lemma applyFilters_allCampers (s : CampersState) :
    (applyFilters s).allCampers = s.allCampers := rfl

/-! ## Helper lemmas about the Redux resolver -/

/-- One `resolve` call is idempotent: its result depends on the prior state
only through fields the settled reducer leaves untouched, so re-resolving
an already-resolved state reproduces it. -/
lemma resolve_idem (resp : SvcLookup) (sess : Option Session) (s : AuthState) :
    resolve resp sess (resolve resp sess s) = resolve resp sess s := by
  cases ho : handleUserSession resp sess <;>
    (unfold resolve; rw [ho]; rfl)

/-! ## Helper lemma for the name chain -/

/-- The code's `||` chain picks the first present-and-non-empty candidate. -/
lemma pendingName_eq_firstNonEmpty (m : UserMetadata) (email : Option String) :
    pendingName m email
      = firstNonEmpty [m.full_name, m.name, emailLocalPart email] "User" := by
  cases hf : m.full_name <;> cases hn : m.name <;> cases he : emailLocalPart email <;>
    simp [pendingName, firstNonEmpty, jsOr, jsTruthy, hf, hn, he]

/-! ## Claims C3 and C10 -/

/-- C3 counterexample: with the whitespace-only query `" "` (non-empty, so
the claim's predicate demands it be a substring of a searched field),
`applyFilters` skips the text filter entirely (it tests the *trimmed*
query) and keeps a listing containing no space, while the claim's
conjunctive predicate excludes it. -/
theorem claim_C3_cex :
    (applyFilters exCampersState).filteredCampers
      ≠ exCampersState.allCampers.filter
          (keepListing exCampersState.searchQuery exCampersState.filters) := by
  decide

/-- C3 (amended): `applyFilters` returns exactly the listings satisfying
the conjunction of the predicates — with the text conjunct applied only
when the query is non-empty *after trimming* — in catalog order (the result
is one `List.filter` pass, hence a subsequence of the input). -/
theorem claim_C3_filter_conjunctive (s : CampersState) :
    (applyFilters s).filteredCampers
        = s.allCampers.filter (keepListingTrim s.searchQuery s.filters)
      ∧ (applyFilters s).filteredCampers.Sublist s.allCampers := by
  refine ⟨applyFilters_filteredCampers s, ?_⟩
  rw [applyFilters_filteredCampers s]
  exact List.filter_sublist _

/-- C10: every campers-store action leaves `allCampers` unchanged and keeps
`filteredCampers` a subsequence of `allCampers` (for `toggleFavorite`,
which touches neither list, assuming the invariant held before). -/
theorem claim_C10_filtered_sublist (s : CampersState) (q : String)
    (f : FilterOptions) (cid : String)
    (hInv : s.filteredCampers.Sublist s.allCampers) :
    ((applyFilters s).allCampers = s.allCampers
      ∧ (applyFilters s).filteredCampers.Sublist (applyFilters s).allCampers)
    ∧ ((setSearchQuery q s).allCampers = s.allCampers
      ∧ (setSearchQuery q s).filteredCampers.Sublist (setSearchQuery q s).allCampers)
    ∧ ((setFilters f s).allCampers = s.allCampers
      ∧ (setFilters f s).filteredCampers.Sublist (setFilters f s).allCampers)
    ∧ ((toggleFavorite cid s).allCampers = s.allCampers
      ∧ (toggleFavorite cid s).filteredCampers.Sublist (toggleFavorite cid s).allCampers) := by
  have happ : ∀ t : CampersState,
      (applyFilters t).filteredCampers.Sublist (applyFilters t).allCampers := by
    intro t
    rw [applyFilters_allCampers, applyFilters_filteredCampers]
    exact List.filter_sublist _
  refine ⟨⟨rfl, happ s⟩, ⟨rfl, happ _⟩, ⟨rfl, happ _⟩, ?_, ?_⟩
  · unfold toggleFavorite
    split <;> rfl
  · unfold toggleFavorite
    split <;> exact hInv

/-- C10 witness: the invariant-preservation theorem applied at a concrete
state satisfying the invariant. -/
theorem claim_C10_filtered_sublist_witness :
    ((applyFilters exCampersState).allCampers = exCampersState.allCampers
      ∧ (applyFilters exCampersState).filteredCampers.Sublist
          (applyFilters exCampersState).allCampers)
    ∧ ((setSearchQuery "van" exCampersState).allCampers = exCampersState.allCampers
      ∧ (setSearchQuery "van" exCampersState).filteredCampers.Sublist
          (setSearchQuery "van" exCampersState).allCampers)
    ∧ ((setFilters exFilters exCampersState).allCampers = exCampersState.allCampers
      ∧ (setFilters exFilters exCampersState).filteredCampers.Sublist
          (setFilters exFilters exCampersState).allCampers)
    ∧ ((toggleFavorite "1" exCampersState).allCampers = exCampersState.allCampers
      ∧ (toggleFavorite "1" exCampersState).filteredCampers.Sublist
          (toggleFavorite "1" exCampersState).allCampers) :=
  claim_C10_filtered_sublist exCampersState "van" exFilters "1" (List.Sublist.refl _)

/-! ## Claims C4, C8, C9 -/

/-- C8: for every prior resolver state and store response, `resolve` of a
`none` session yields `Unauthenticated`: user cleared, pending identity
cleared, needs-profile flag false, authenticated flag false, session
cleared. -/
theorem claim_C8_resolve_none_unauthenticated (resp : SvcLookup) (s : AuthState) :
    (resolve resp none s).user = none
    ∧ (resolve resp none s).pendingUserData = none
    ∧ (resolve resp none s).needsProfileSetup = false
    ∧ (resolve resp none s).isAuthenticated = false
    ∧ (resolve resp none s).session = none :=
  ⟨rfl, rfl, rfl, rfl, rfl⟩

/-- C4 counterexample: during a second `resolve` of the same no-row session
against the same store, a subscriber observes the needs-profile flag go
`true → false → true` — the pending reducer clears the modal state before
the fulfilled reducer restores it, an intermediate state differing from the
resolved state, contradicting the claim's "no flicker". -/
theorem claim_C4_cex :
    (resolveTrace (fetchFromStore exStoreEmpty exSessionUser.id) (some exSession)
        (resolve (fetchFromStore exStoreEmpty exSessionUser.id) (some exSession)
          exAuthInit)).map AuthState.needsProfileSetup
      = [true, false, true] := by
  decide

/-- C4 (amended): the resolved state itself is idempotent — the second
`resolve` with the same session and store reproduces the first call's state
exactly — but (per the counterexample) the intermediate pending publish is
observable. -/
theorem claim_C4_resolve_idem (resp : SvcLookup) (sess : Option Session)
    (s : AuthState) :
    resolve resp sess (resolve resp sess s) = resolve resp sess s :=
  resolve_idem resp sess s

/-- C9 counterexample: two rapid triggers for the same identity issue two
remote lookups, not one — `AuthProvider` has no request-affinity guard. -/
theorem claim_C9_cex :
    (processEvents exStoreWithRow [some exSession, some exSession] exAuthInit).2 = 2
    ∧ (processEvents exStoreWithRow [some exSession, some exSession] exAuthInit).2
        ≠ 1 := by
  decide

/-- C9 (amended): each trigger issues its own remote lookup (two triggers →
two lookups; there is no collapsing guard), but since the store is
unchanged the second resolution publishes exactly the state of the first —
no divergent publishes. -/
theorem claim_C9_two_triggers_two_lookups (store : ProfileStore) (sess : Session)
    (s : AuthState) :
    (processEvents store [some sess, some sess] s).2 = 2
    ∧ (processEvents store [some sess, some sess] s).1
        = (processEvents store [some sess] s).1 := by
  refine ⟨rfl, ?_⟩
  exact resolve_idem (fetchFromStore store sess.user.id) (some sess) s

/-! ## Claims C1, C2, C5, C6, C7 -/

/-- C1 counterexample: on a lookup timeout, the `part_006` resolver
publishes a fabricated `Resolved` user whose role silently defaults to
`customer`, with the needs-profile flag cleared — not `NeedsProfile`. -/
theorem claim_C1_cex :
    (ctxHandleUserSession .timeout exSessionUser none exCtxInit).user.map User.role
        = some Role.customer
    ∧ (ctxHandleUserSession .timeout exSessionUser none exCtxInit).needsProfileSetup
        = false := by
  decide

/-- C1 (amended): on a timeout or a store error outside the not-found
class, the `part_006` resolver publishes the fallback `Resolved` user —
role defaulted to `customer`, needs-profile flag false — while the current
`AuthContext.fetchUserProfile` maps every error and timeout to `none`
("no profile"), which routes to `NeedsProfile`. -/
theorem claim_C1_fallback_role (resp : CtxLookup) (u : SessionUser)
    (pref : Option Role) (s : CtxState) (e' : DbError)
    (h : resp = .timeout ∨ ∃ e, resp = .failure e ∧ isNotFoundClass e = false) :
    ctxHandleUserSession resp u pref s = createFallbackUser u s
    ∧ (ctxHandleUserSession resp u pref s).user.map User.role = some Role.customer
    ∧ (ctxHandleUserSession resp u pref s).needsProfileSetup = false
    ∧ fetchUserProfile (.failure e') = none
    ∧ fetchUserProfile .timeout = none := by
  obtain (rfl | ⟨e, rfl, he⟩) := h
  · exact ⟨rfl, rfl, rfl, rfl, rfl⟩
  · refine ⟨?_, ?_, ?_, rfl, rfl⟩ <;>
      simp [ctxHandleUserSession, createFallbackUser, he]

/-- C1 witness: the fallback theorem at the concrete timeout input. -/
theorem claim_C1_fallback_role_witness :
    ctxHandleUserSession .timeout exSessionUser none exCtxInit
        = createFallbackUser exSessionUser exCtxInit
    ∧ (ctxHandleUserSession .timeout exSessionUser none exCtxInit).user.map User.role
        = some Role.customer
    ∧ (ctxHandleUserSession .timeout exSessionUser none exCtxInit).needsProfileSetup
        = false
    ∧ fetchUserProfile (.failure exDbErr) = none
    ∧ fetchUserProfile .timeout = none :=
  claim_C1_fallback_role .timeout exSessionUser none exCtxInit exDbErr (Or.inl rfl)

/-- C2 counterexample: the `AuthContext` resolver substitutes the fallback
name `"User"` for a stored row whose name column is empty — the published
profile's name is not exactly the row's name. -/
theorem claim_C2_cex :
    (ctxHandleUserSession (.success (some exRowEmptyName)) exSessionUser none
        exCtxInit).user.map User.name
      ≠ some exRowEmptyName.name := by
  decide

/-- C2 (amended): the Redux resolver publishes `Resolved` with every field
verbatim from the stored row, and the `AuthContext` mapping agrees with the
verbatim mapping whenever the row's name is non-empty (its only deviations
are the `name || 'User'` and `email || ''` coalescings). -/
theorem claim_C2_resolved_verbatim (store : ProfileStore) (sess : Session)
    (s : AuthState) (r r' : ProfileRow)
    (h : store sess.user.id = some r) (hr' : r'.name ≠ "") :
    (resolve (fetchFromStore store sess.user.id) (some sess) s).user
        = some { id := r.id, name := r.name, email := r.email, role := r.role
                 avatar := r.avatar, rating := some r.rating
                 reviewCount := some r.review_count }
    ∧ (resolve (fetchFromStore store sess.user.id) (some sess) s).needsProfileSetup
        = false
    ∧ (resolve (fetchFromStore store sess.user.id) (some sess) s).isAuthenticated
        = true
    ∧ userFromRowCtx r' = userFromRow r' := by
  have hf : fetchFromStore store sess.user.id = .row r := by
    simp [fetchFromStore, h]
  refine ⟨?_, ?_, ?_, ?_⟩
  · simp [resolve, hf, handleUserSession, getUserProfile, sessionSettled,
      sessionPending, setSession, userFromRow]
  · simp [resolve, hf, handleUserSession, getUserProfile, sessionSettled,
      sessionPending, setSession]
  · simp [resolve, hf, handleUserSession, getUserProfile, sessionSettled,
      sessionPending, setSession]
  · unfold userFromRowCtx userFromRow
    rw [if_neg hr']
    split_ifs with he
    · simp [he]
    · rfl

/-- C2 witness: the verbatim-resolution theorem at the concrete store
holding `exRow`. -/
theorem claim_C2_resolved_verbatim_witness :
    (resolve (fetchFromStore exStoreWithRow exSession.user.id) (some exSession)
          exAuthInit).user
        = some { id := exRow.id, name := exRow.name, email := exRow.email
                 role := exRow.role, avatar := exRow.avatar
                 rating := some exRow.rating
                 reviewCount := some exRow.review_count }
    ∧ (resolve (fetchFromStore exStoreWithRow exSession.user.id) (some exSession)
          exAuthInit).needsProfileSetup = false
    ∧ (resolve (fetchFromStore exStoreWithRow exSession.user.id) (some exSession)
          exAuthInit).isAuthenticated = true
    ∧ userFromRowCtx exRow = userFromRow exRow :=
  claim_C2_resolved_verbatim exStoreWithRow exSession exAuthInit exRow exRow
    (by decide) (by decide)

/-- C5: whenever the `completeProfileSetup` thunk rejects — no pending user
data (wrong state) or a failed insert — the dispatched call leaves every
session-resolution field (user, needs-profile flag, pending data, session,
authenticated flag) unchanged and surfaces the typed error string. -/
theorem claim_C5_setup_failure_preserves_state (store : InsertStore)
    (form : ProfileForm) (s : AuthState) (e : String)
    (h : completeProfileSetup store form (setupPending s) = .rejected e) :
    (dispatchSetup store form s).user = s.user
    ∧ (dispatchSetup store form s).needsProfileSetup = s.needsProfileSetup
    ∧ (dispatchSetup store form s).pendingUserData = s.pendingUserData
    ∧ (dispatchSetup store form s).session = s.session
    ∧ (dispatchSetup store form s).isAuthenticated = s.isAuthenticated
    ∧ (dispatchSetup store form s).error = some e := by
  simp only [dispatchSetup]
  rw [h]
  exact ⟨rfl, rfl, rfl, rfl, rfl, rfl⟩

/-- C5 witness: a failing insert from the concrete NeedsProfile state. -/
theorem claim_C5_setup_failure_preserves_state_witness :
    (dispatchSetup exInsertStoreErr exForm exNeedsState).user = exNeedsState.user
    ∧ (dispatchSetup exInsertStoreErr exForm exNeedsState).needsProfileSetup
        = exNeedsState.needsProfileSetup
    ∧ (dispatchSetup exInsertStoreErr exForm exNeedsState).pendingUserData
        = exNeedsState.pendingUserData
    ∧ (dispatchSetup exInsertStoreErr exForm exNeedsState).session
        = exNeedsState.session
    ∧ (dispatchSetup exInsertStoreErr exForm exNeedsState).isAuthenticated
        = exNeedsState.isAuthenticated
    ∧ (dispatchSetup exInsertStoreErr exForm exNeedsState).error
        = some "Failed to create profile: duplicate key value violates unique constraint" :=
  claim_C5_setup_failure_preserves_state exInsertStoreErr exForm exNeedsState _
    (by decide)

/-- C6: whenever the insert succeeds, the new `Resolved` state is built
from the row echoed back by the store — every published field comes from
that row, for any echoed row, in particular one differing from the
locally-constructed request — and the modal state is cleared. -/
theorem claim_C6_insert_echo (store : InsertStore) (form : ProfileForm)
    (s : AuthState) (p : PendingUserData) (row : ProfileRow)
    (hp : s.pendingUserData = some p)
    (hstore : store (mkInsertRequest p.id form.name p.email form.role) = .ok row) :
    (dispatchSetup store form s).user
        = some { id := row.id, name := row.name, email := row.email
                 role := row.role, avatar := row.avatar
                 rating := some row.rating
                 reviewCount := some row.review_count }
    ∧ (dispatchSetup store form s).needsProfileSetup = false
    ∧ (dispatchSetup store form s).pendingUserData = none := by
  have hp' : (setupPending s).pendingUserData = some p := hp
  unfold dispatchSetup
  simp only [completeProfileSetup, hp', createUserProfile, hstore]
  exact ⟨rfl, rfl, rfl⟩

/-- C6 witness: the echo theorem at a store whose echoed row deliberately
differs from the request. -/
theorem claim_C6_insert_echo_witness :
    (dispatchSetup exInsertStoreEcho exForm exNeedsState).user
        = some { id := exEchoRow.id, name := exEchoRow.name
                 email := exEchoRow.email, role := exEchoRow.role
                 avatar := exEchoRow.avatar, rating := some exEchoRow.rating
                 reviewCount := some exEchoRow.review_count }
    ∧ (dispatchSetup exInsertStoreEcho exForm exNeedsState).needsProfileSetup = false
    ∧ (dispatchSetup exInsertStoreEcho exForm exNeedsState).pendingUserData = none :=
  claim_C6_insert_echo exInsertStoreEcho exForm exNeedsState
    (mkPendingData exSessionUser) exEchoRow (by decide) (by decide)

/-- C7 counterexample: for a provider whose `full_name` is present but
empty, the resolver's pending name is the short name `"Bob"`, not the value
of the claim's `??`-precedence chain (which would keep the empty full
name). -/
theorem claim_C7_cex :
    (resolve (fetchFromStore exStoreEmpty exUserEmptyFull.id)
        (some exSessionEmptyFull) exAuthInit).pendingUserData.map PendingUserData.name
      ≠ some (specPendingName exUserEmptyFull.user_metadata exUserEmptyFull.email) := by
  decide

/-- C7 (amended): for an identity with no profile row, `resolve` yields
`NeedsProfile` whose pending name is the first *present and non-empty*
candidate among provider full name, provider short name and the email's
local part, else the literal `"User"` (JS `||` treats an empty string as
absent). -/
theorem claim_C7_pending_name_chain (store : ProfileStore) (sess : Session)
    (s : AuthState) (h : store sess.user.id = none) :
    (resolve (fetchFromStore store sess.user.id) (some sess) s).needsProfileSetup
        = true
    ∧ (resolve (fetchFromStore store sess.user.id) (some sess) s).pendingUserData
        = some (mkPendingData sess.user)
    ∧ (mkPendingData sess.user).name
        = firstNonEmpty [sess.user.user_metadata.full_name,
            sess.user.user_metadata.name, emailLocalPart sess.user.email] "User" := by
  have hf : fetchFromStore store sess.user.id
      = .failure { code := "PGRST116", message := "no rows returned" } := by
    simp [fetchFromStore, h]
  refine ⟨?_, ?_, pendingName_eq_firstNonEmpty _ _⟩ <;>
    simp [resolve, hf, handleUserSession, getUserProfile, sessionSettled,
      sessionPending, setSession]

/-- C7 witness: the pending-name theorem at the empty store and the
concrete session. -/
theorem claim_C7_pending_name_chain_witness :
    (resolve (fetchFromStore exStoreEmpty exSession.user.id) (some exSession)
          exAuthInit).needsProfileSetup = true
    ∧ (resolve (fetchFromStore exStoreEmpty exSession.user.id) (some exSession)
          exAuthInit).pendingUserData = some (mkPendingData exSession.user)
    ∧ (mkPendingData exSession.user).name
        = firstNonEmpty [exSession.user.user_metadata.full_name,
            exSession.user.user_metadata.name,
            emailLocalPart exSession.user.email] "User" :=
  claim_C7_pending_name_chain exStoreEmpty exSession exAuthInit (by decide)

end VanBolt
